import Mathlib

/-!
Shallow embedding of the ride-lifecycle core of the Triper ride-hailing
client (TypeScript sources under `src/`).  The remote real-time store is
modelled as a map from record ids to ride records; the gateway operations
(`createRideRequest`, `updateRideRequest`, `cancelRide`), the driver-side
handlers (`acceptRide`, `startRide`, `cancelAcceptedRide`,
`updateDriverLocation`), the customer-side handlers (`requestRide`, the
`listenToAllCustomerRides` reconciliation callback), the recent-search cache
(`saveRecentSearch`) and the phone-number cache (`savePhoneNumber`,
`getPhoneNumber`, `hasStoredPhoneNumber`) are translated function by function.

JavaScript numbers are modelled as exact rationals (`ℚ`) for coordinates,
mileage and prices, and as integers (`ℤ`) for epoch-millisecond timestamps.
The floating-point haversine helper `calculateDistance`
(`DriverInterface.tsx`, Earth radius 3958.8 mi) uses transcendental
functions that have no executable counterpart over `ℚ`; every operation
that consumes it therefore takes the distance function as an explicit
parameter `dist`, and theorems quantify over it, so they hold in particular
for the haversine instance.
-/

namespace Triper

/-- Coordinate pair, `Location` in `firebaseService`/`enhancedLocationService`
(`latitude`, `longitude`). -/
structure Location where
  latitude : ℚ
  longitude : ℚ
  deriving DecidableEq, Repr

/-- The five ride statuses of the `RideRequest.status` string union. -/
inductive RideStatus where
  | pending
  | accepted
  | started
  | completed
  | cancelled
  deriving DecidableEq, Repr

/-- The `RideRequest` record shape of `enhancedLocationService.ts` (the `id`
field is the store key and is kept outside the record, exactly as in the
database snapshot value).  Optional TypeScript fields become `Option`. -/
structure RideRequest where
  customerId : String
  customerName : Option String := none
  customerPhoneNumber : Option String := none
  requestTime : ℤ
  pickupLocation : Location
  pickupAddress : Option String := none
  destinationLocation : Option Location := none
  destinationAddress : Option String := none
  status : RideStatus
  driverId : Option String := none
  driverName : Option String := none
  driverPhoneNumber : Option String := none
  startTime : Option ℤ := none
  endTime : Option ℤ := none
  cancelTime : Option ℤ := none
  startTripLocation : Option Location := none
  currentDriverLocation : Option Location := none
  calculatedMileage : ℚ
  estimatedPrice : Option ℚ := none
  deriving DecidableEq, Repr

/-- One field-wise partial update (`Partial<RideRequest>` in the sources).
`none` means the field is not mentioned; for fields that are themselves
optional in the record, `some none` models an explicit `null`, which the
realtime database treats as deletion. -/
structure RidePatch where
  customerId : Option String := none
  customerName : Option (Option String) := none
  customerPhoneNumber : Option (Option String) := none
  requestTime : Option ℤ := none
  pickupLocation : Option Location := none
  pickupAddress : Option (Option String) := none
  destinationLocation : Option (Option Location) := none
  destinationAddress : Option (Option String) := none
  status : Option RideStatus := none
  driverId : Option (Option String) := none
  driverName : Option (Option String) := none
  driverPhoneNumber : Option (Option String) := none
  startTime : Option (Option ℤ) := none
  endTime : Option (Option ℤ) := none
  cancelTime : Option (Option ℤ) := none
  startTripLocation : Option (Option Location) := none
  currentDriverLocation : Option (Option Location) := none
  calculatedMileage : Option ℚ := none
  estimatedPrice : Option (Option ℚ) := none
  deriving DecidableEq, Repr

/-- The JavaScript spread `{ ...snapshot.val(), ...updates }`: every field
mentioned in the patch overrides the snapshot value, every other field is
kept. -/
def applyPatch (r : RideRequest) (p : RidePatch) : RideRequest where
  customerId := p.customerId.getD r.customerId
  customerName := p.customerName.getD r.customerName
  customerPhoneNumber := p.customerPhoneNumber.getD r.customerPhoneNumber
  requestTime := p.requestTime.getD r.requestTime
  pickupLocation := p.pickupLocation.getD r.pickupLocation
  pickupAddress := p.pickupAddress.getD r.pickupAddress
  destinationLocation := p.destinationLocation.getD r.destinationLocation
  destinationAddress := p.destinationAddress.getD r.destinationAddress
  status := p.status.getD r.status
  driverId := p.driverId.getD r.driverId
  driverName := p.driverName.getD r.driverName
  driverPhoneNumber := p.driverPhoneNumber.getD r.driverPhoneNumber
  startTime := p.startTime.getD r.startTime
  endTime := p.endTime.getD r.endTime
  cancelTime := p.cancelTime.getD r.cancelTime
  startTripLocation := p.startTripLocation.getD r.startTripLocation
  currentDriverLocation := p.currentDriverLocation.getD r.currentDriverLocation
  calculatedMileage := p.calculatedMileage.getD r.calculatedMileage
  estimatedPrice := p.estimatedPrice.getD r.estimatedPrice

/-- The `rideRequests/{id}` subtree of the realtime database. -/
abbrev Store := String → Option RideRequest

/-- `updateRideRequest` of `enhancedLocationService.ts`: read the snapshot at
`rideRequests/{rideId}` and write back the spread-merge of snapshot and
patch.  When the node does not exist the source writes the raw partial
object there, producing a fragment that is not a well-formed `RideRequest`;
that branch is outside every claim and an absent node is left absent here. -/
def updateRideRequest (store : Store) (rideId : String) (p : RidePatch) : Store :=
  fun k => if k = rideId then (store rideId).map (fun r => applyPatch r p) else store k

/-- The `Omit<RideRequest, 'id' | 'requestTime' | 'calculatedMileage' | 'status'>`
argument of `createRideRequest`. -/
structure RideDraft where
  customerId : String
  customerName : Option String := none
  customerPhoneNumber : Option String := none
  pickupLocation : Location
  pickupAddress : Option String := none
  destinationLocation : Option Location := none
  destinationAddress : Option String := none
  driverId : Option String := none
  driverName : Option String := none
  driverPhoneNumber : Option String := none
  startTime : Option ℤ := none
  endTime : Option ℤ := none
  cancelTime : Option ℤ := none
  startTripLocation : Option Location := none
  currentDriverLocation : Option Location := none
  estimatedPrice : Option ℚ := none
  deriving DecidableEq, Repr

/-- `createRideRequest` of `enhancedLocationService.ts`: push a fresh key
(`newId`, supplied by the backend) and store the draft extended with
`requestTime := Date.now()`, `status := 'pending'` and
`calculatedMileage := 0`. -/
def createRideRequest (store : Store) (newId : String) (now : ℤ) (d : RideDraft) : Store :=
  fun k =>
    if k = newId then
      some
        { customerId := d.customerId
          customerName := d.customerName
          customerPhoneNumber := d.customerPhoneNumber
          requestTime := now
          pickupLocation := d.pickupLocation
          pickupAddress := d.pickupAddress
          destinationLocation := d.destinationLocation
          destinationAddress := d.destinationAddress
          status := .pending
          driverId := d.driverId
          driverName := d.driverName
          driverPhoneNumber := d.driverPhoneNumber
          startTime := d.startTime
          endTime := d.endTime
          cancelTime := d.cancelTime
          startTripLocation := d.startTripLocation
          currentDriverLocation := d.currentDriverLocation
          calculatedMileage := 0
          estimatedPrice := d.estimatedPrice }
    else store k

/-- Result convention for the stateful handlers: the returned store is the
remote subtree after the call, and the second component is `some message`
exactly when the source surfaced an error (toast / thrown exception) and
returned without issuing the corresponding write. -/
abbrev StoreResult := Store × Option String

/-- `cancelRide` of `enhancedLocationService.ts` (the customer-side cancel):
reject when the node is missing; reject (throw) unless the snapshot status
is `pending` or `accepted`; otherwise merge `status := 'cancelled'` and
`cancelTime := Date.now()`. -/
def cancelRide (store : Store) (rideId : String) (now : ℤ) : StoreResult :=
  match store rideId with
  | none => (store, some "Ride not found")
  | some r =>
    if r.status = .pending ∨ r.status = .accepted then
      (updateRideRequest store rideId
        { status := some .cancelled, cancelTime := some (some now) }, none)
    else
      (store, some "Cannot cancel ride with status")

/-- The update object of `cancelAcceptedRide` in `DriverInterface.tsx`:
`status: 'pending'` with explicit `null` on the three driver fields. -/
def driverCancelPatch : RidePatch :=
  { status := some .pending
    driverId := some none
    driverName := some none
    driverPhoneNumber := some none }

/-- `cancelAcceptedRide` of `DriverInterface.tsx` (the driver-side cancel):
reject unless the locally held active ride has status `accepted` or
`started`; reject when the node is missing; otherwise apply
`driverCancelPatch` directly at `rideRequests/{rideId}` (a realtime-database
`update`, i.e. a top-level merge). -/
def cancelAcceptedRide (store : Store) (activeRide : RideRequest) (rideId : String) :
    StoreResult :=
  if activeRide.status = .accepted ∨ activeRide.status = .started then
    match store rideId with
    | none => (store, some "Ride not found")
    | some r =>
      ((fun k => if k = rideId then some (applyPatch r driverCancelPatch) else store k), none)
  else
    (store, some "Cannot Cancel")

/-- `acceptRide` of `DriverInterface.tsx`: reject when the driver id or name
is empty (falsy) or when no phone number is on file; otherwise merge
`status := 'accepted'` and the three driver contact fields into the record.
No check of the stored status is made at write time. -/
def acceptRide (store : Store) (driverId driverName : String) (hasPhoneNumber : Bool)
    (userPhoneNumber : String) (rideId : String) : StoreResult :=
  if driverId = "" ∨ driverName = "" then
    (store, some "Account Required")
  else if ¬ hasPhoneNumber then
    (store, some "Phone Required")
  else
    (updateRideRequest store rideId
      { status := some .accepted
        driverId := some (some driverId)
        driverName := some (some driverName)
        driverPhoneNumber := some (some userPhoneNumber) }, none)

/-- `PICKUP_PROXIMITY_THRESHOLD` of `startRide` (0.1 miles). -/
def PICKUP_PROXIMITY_THRESHOLD : ℚ := 1 / 10

/-- `startRide` of `DriverInterface.tsx`: reject unless the local active ride
has status `accepted`; reject without a current location; reject when the
distance from the driver to the pickup location exceeds the 0.1-mile
threshold; otherwise merge `status := 'started'`, `startTime := Date.now()`,
`startTripLocation := currentLocation` and `calculatedMileage := 0`.
`dist` stands for the haversine `calculateDistance`; the source guards the
proximity check with `if (activeRide.pickupLocation)`, which is vacuous here
because the data model makes `pickupLocation` a required field. -/
def startRide (dist : Location → Location → ℚ) (store : Store)
    (activeRide : RideRequest) (rideId : String)
    (currentLocation : Option Location) (now : ℤ) : StoreResult :=
  if activeRide.status = .accepted then
    match currentLocation with
    | none => (store, some "Location Required")
    | some loc =>
      if dist loc activeRide.pickupLocation > PICKUP_PROXIMITY_THRESHOLD then
        (store, some "Too Far From Pickup")
      else
        (updateRideRequest store rideId
          { status := some .started
            startTime := some (some now)
            startTripLocation := some (some loc)
            calculatedMileage := some 0 }, none)
  else
    (store, some "Cannot Start Ride")

/-- The component state of `DriverInterface.tsx` that the periodic location
callback reads and writes: `currentLocation`, `isTracking`, `startLocation`
and `mileage`. -/
structure TrackState where
  currentLocation : Option Location
  isTracking : Bool
  startLocation : Option Location
  mileage : ℚ
  deriving DecidableEq, Repr

/-- One tick of `updateDriverLocation` in `DriverInterface.tsx` (the
5-second interval callback) after the geolocation API delivers
`newLocation`: always store the new current location; when tracking with a
start location, add `dist startLocation newLocation` to the local mileage
and, when an active ride id is known, merge the new running total and the
new driver position into the remote record.  The `startLocation` baseline is
never advanced to the previous sample. -/
def updateDriverLocation (dist : Location → Location → ℚ) (st : TrackState)
    (activeRideId : Option String) (store : Store) (newLocation : Location) :
    TrackState × Store :=
  if st.isTracking then
    match st.startLocation with
    | some start =>
      let d := dist start newLocation
      let st2 : TrackState :=
        { st with currentLocation := some newLocation, mileage := st.mileage + d }
      match activeRideId with
      | some rid =>
        (st2, updateRideRequest store rid
          { calculatedMileage := some (st.mileage + d)
            currentDriverLocation := some (some newLocation) })
      | none => (st2, store)
    | none => ({ st with currentLocation := some newLocation }, store)
  else
    ({ st with currentLocation := some newLocation }, store)

/-- Membership of a status in the active set `{pending, accepted, started}`
(the filter used by the customer reconciliation callback). -/
def isActiveStatus (s : RideStatus) : Bool :=
  match s with
  | .pending => true
  | .accepted => true
  | .started => true
  | _ => false

/-- The recently-completed filter of the `listenToAllCustomerRides` callback
in `CustomerInterface.tsx`: status `completed`, truthy `endTime`, and
`endTime > now - 5 * 60 * 1000`. -/
def isRecentlyCompleted (now : ℤ) (r : RideRequest) : Bool :=
  match r.status, r.endTime with
  | .completed, some t => decide (t ≠ 0) && decide (now - 5 * 60 * 1000 < t)
  | _, _ => false

/-- What the customer reconciliation callback does to the controller's
active-ride reference: clear it, adopt a ride, or show a completed ride and
schedule a reset after the given grace delay in milliseconds. -/
inductive ReconcileOutcome where
  | cleared : ReconcileOutcome
  | adopted : RideRequest → ReconcileOutcome
  | shownThenCleared : RideRequest → ℤ → ReconcileOutcome
  deriving DecidableEq, Repr

/-- The `listenToAllCustomerRides` callback of `CustomerInterface.tsx`
(lines 205-252): an empty snapshot resets; otherwise the first ride with an
active status is adopted; otherwise the recently-completed rides are sorted
by `endTime` descending and the first is shown with a 5000 ms
`setTimeout(resetRide)`; otherwise reset. -/
def reconcileCustomerRides (now : ℤ) (rides : List RideRequest) : ReconcileOutcome :=
  match rides with
  | [] => .cleared
  | _ =>
    match rides.filter (fun r => isActiveStatus r.status) with
    | r :: _ => .adopted r
    | [] =>
      match (rides.filter (isRecentlyCompleted now)).mergeSort
          (fun a b => decide (b.endTime.getD 0 ≤ a.endTime.getD 0)) with
      | r :: _ => .shownThenCleared r 5000
      | [] => .cleared

/-- `requestRide` of `CustomerInterface.tsx`: reject without a destination;
reject without a current location; reject when `checkCustomerActiveRide`
returned a ride whose status is active; reject when the parsed price is
`NaN` (modelled as `none`) or not positive; otherwise create the ride via
`createRideRequest`.  `dest` carries the selected location and address. -/
def requestRide (customerId customerName userPhoneNumber : String)
    (selectedDestination : Option (Location × String))
    (currentLocation : Option Location)
    (existingRide : Option RideRequest)
    (price : Option ℚ)
    (pickupAddress : String)
    (store : Store) (newId : String) (now : ℤ) : StoreResult :=
  match selectedDestination with
  | none => (store, some "Missing Information")
  | some dest =>
    match currentLocation with
    | none => (store, some "Missing Information")
    | some loc =>
      if (match existingRide with
          | some er => isActiveStatus er.status
          | none => false) then
        (store, some "Active Ride Found")
      else
        match price with
        | none => (store, some "Invalid Price")
        | some p =>
          if p ≤ 0 then
            (store, some "Invalid Price")
          else
            (createRideRequest store newId now
              { customerId := customerId
                customerName := some (if customerName = "" then "Customer" else customerName)
                customerPhoneNumber := some userPhoneNumber
                pickupLocation := loc
                pickupAddress := some pickupAddress
                destinationLocation := some dest.1
                destinationAddress := some dest.2
                estimatedPrice := some p }, none)

/-- The `PlaceResult` shape of `locationService.ts` as used by the
recent-search cache (`id`, `name`, `address`, `location`, optional
`distance` and `accuracy`). -/
structure PlaceResult where
  id : String
  name : String
  address : String
  location : Location
  distance : Option ℚ := none
  accuracy : Option String := none
  deriving DecidableEq, Repr

/-- `saveRecentSearch` of `DestinationSearch.tsx`: remove the first stored
entry sharing the new place's id (`findIndex` + `splice`), `unshift` the new
place to the front, and keep at most 5 entries (`slice(0, 5)`). -/
def saveRecentSearch (place : PlaceResult) (stored : List PlaceResult) : List PlaceResult :=
  (place :: stored.eraseP (fun p => p.id == place.id)).take 5

/-- The `phone_numbers/{userId}` record of `phoneStorage` (part_008):
`phoneNumber`, `userType`, `verified`, `timestamp`. -/
structure PhoneData where
  phoneNumber : String
  userType : String
  verified : Bool
  timestamp : ℤ
  deriving DecidableEq, Repr

/-- The browser-local keys the phone storage module uses: `phone_number`,
`user_type` and `user_id`.  They are device-global, not keyed by user. -/
structure LocalPhoneCache where
  phone_number : Option String := none
  user_type : Option String := none
  user_id : Option String := none
  deriving DecidableEq, Repr

/-- The `phone_numbers` subtree of the realtime database. -/
abbrev PhoneStore := String → Option PhoneData

/-- `savePhoneNumber` of `phoneStorage` (part_008): unconditionally overwrite
the device-global local keys, then write `phone_numbers/{userId}` (the
firebase write may fail silently; the successful write is modelled). -/
def savePhoneNumber (ls : LocalPhoneCache) (fb : PhoneStore)
    (userId phoneNumber userType : String) (now : ℤ) :
    LocalPhoneCache × PhoneStore :=
  ({ phone_number := some phoneNumber, user_type := some userType, user_id := some userId },
   fun k =>
     if k = userId then
       some { phoneNumber := phoneNumber, userType := userType, verified := true, timestamp := now }
     else fb k)

/-- `getPhoneNumber` of `phoneStorage` (part_008): return the local
`phone_number` key when present, ignoring `userId`; otherwise read
`phone_numbers/{userId}` and mirror a hit back into the local keys.  The
second component is the local cache after the call. -/
def getPhoneNumber (ls : LocalPhoneCache) (fb : PhoneStore) (userId : String) :
    Option String × LocalPhoneCache :=
  match ls.phone_number with
  | some p => (some p, ls)
  | none =>
    match fb userId with
    | some d =>
      (some d.phoneNumber,
       { ls with phone_number := some d.phoneNumber, user_type := some d.userType })
    | none => (none, ls)

/-- `hasStoredPhoneNumber` of `phoneStorage` (part_008): truthiness of the
`getPhoneNumber` result. -/
def hasStoredPhoneNumber (ls : LocalPhoneCache) (fb : PhoneStore) (userId : String) : Bool :=
  (getPhoneNumber ls fb userId).1.isSome

/-! Concrete sample records used by counterexamples and witnesses. -/

/-- A ride in status `started`, as stored after a successful start. -/
def sampleStartedRide : RideRequest :=
  { customerId := "c1", customerName := some "Cleo", requestTime := 1000
    pickupLocation := ⟨30, 31⟩, status := .started
    driverId := some "d1", driverName := some "Dana", driverPhoneNumber := some "0100"
    startTime := some 2000, startTripLocation := some ⟨30, 31⟩, calculatedMileage := 0 }

/-- A store holding `sampleStartedRide` under key `r1`. -/
def sampleStartedStore : Store :=
  fun k => if k = "r1" then some sampleStartedRide else none

/-- A ride in status `pending`, as stored right after creation. -/
def samplePendingRide : RideRequest :=
  { customerId := "c1", customerName := some "Cleo", requestTime := 1000
    pickupLocation := ⟨30, 31⟩, status := .pending, calculatedMileage := 0
    estimatedPrice := some 25 }

/-- A store holding `samplePendingRide` under key `r1`. -/
def samplePendingStore : Store :=
  fun k => if k = "r1" then some samplePendingRide else none

/-- A ride in status `accepted`. -/
def sampleAcceptedRide : RideRequest :=
  { customerId := "c1", customerName := some "Cleo", requestTime := 1000
    pickupLocation := ⟨30, 31⟩, status := .accepted
    driverId := some "d1", driverName := some "Dana", driverPhoneNumber := some "0100"
    calculatedMileage := 0 }

/-- A store holding `sampleAcceptedRide` under key `r1`. -/
def sampleAcceptedStore : Store :=
  fun k => if k = "r1" then some sampleAcceptedRide else none

/-- A ride in status `cancelled`. -/
def sampleCancelledRide : RideRequest :=
  { customerId := "c1", customerName := some "Cleo", requestTime := 1000
    pickupLocation := ⟨30, 31⟩, status := .cancelled, cancelTime := some 1500
    calculatedMileage := 0 }

/-- A store holding `sampleCancelledRide` under key `r1`. -/
def sampleCancelledStore : Store :=
  fun k => if k = "r1" then some sampleCancelledRide else none

/-- A ride completed at epoch-millisecond 999000. -/
def sampleCompletedRecent : RideRequest :=
  { customerId := "c1", requestTime := 1000, pickupLocation := ⟨30, 31⟩
    status := .completed, endTime := some 999000, calculatedMileage := 3 }

/-- A ride completed at epoch-millisecond 100. -/
def sampleCompletedOld : RideRequest :=
  { customerId := "c1", requestTime := 50, pickupLocation := ⟨30, 31⟩
    status := .completed, endTime := some 100, calculatedMileage := 2 }

/-- Sample data for the location-update evaluation: the start-trip location. -/
def c1Start : Location := ⟨0, 0⟩

/-- Sample data for the location-update evaluation: the repeated driver
position sample. -/
def c1Sample : Location := ⟨0, 1⟩

/-- A concrete rational-valued instance for the `dist` parameter, used to
evaluate the location-update tick on explicit inputs. -/
def c1Dist : Location → Location → ℚ := fun a b =>
  |a.latitude - b.latitude| + |a.longitude - b.longitude|

/-- The tracking state right after a start at `c1Start`. -/
def c1State0 : TrackState :=
  { currentLocation := some c1Start, isTracking := true
    startLocation := some c1Start, mileage := 0 }

/-- A store holding the started ride for the location-update evaluation. -/
def c1Store : Store :=
  fun k =>
    if k = "r1" then
      some { customerId := "c1", requestTime := 1000, pickupLocation := c1Start
             status := .started, startTime := some 2000
             startTripLocation := some c1Start, calculatedMileage := 0 }
    else none

/-- First location-update tick, at sample `c1Sample`. -/
def c1Tick1 : TrackState × Store :=
  updateDriverLocation c1Dist c1State0 (some "r1") c1Store c1Sample

/-- Second location-update tick, at the same sample `c1Sample` (the driver
has not moved between the two ticks). -/
def c1Tick2 : TrackState × Store :=
  updateDriverLocation c1Dist c1Tick1.1 (some "r1") c1Tick1.2 c1Sample

/-! Theorems. -/

/-- C5: updating an existing record and reading it back yields the
field-wise merge: the stored value at the updated id is `applyPatch r p`,
every other id is untouched, and for each field of the record a patch entry
of `none` leaves the field unchanged while a patch entry of `some v` sets it
to `v` (merge semantics, not replace). -/
theorem updateRideRequest_merge_semantics (store : Store) (rideId : String)
    (r : RideRequest) (p : RidePatch) (h : store rideId = some r) :
    (updateRideRequest store rideId p) rideId = some (applyPatch r p)
    ∧ (∀ k, k ≠ rideId → updateRideRequest store rideId p k = store k)
    ∧ (p.customerId = none → (applyPatch r p).customerId = r.customerId)
    ∧ (∀ v, p.customerId = some v → (applyPatch r p).customerId = v)
    ∧ (p.customerName = none → (applyPatch r p).customerName = r.customerName)
    ∧ (∀ v, p.customerName = some v → (applyPatch r p).customerName = v)
    ∧ (p.customerPhoneNumber = none →
        (applyPatch r p).customerPhoneNumber = r.customerPhoneNumber)
    ∧ (∀ v, p.customerPhoneNumber = some v → (applyPatch r p).customerPhoneNumber = v)
    ∧ (p.requestTime = none → (applyPatch r p).requestTime = r.requestTime)
    ∧ (∀ v, p.requestTime = some v → (applyPatch r p).requestTime = v)
    ∧ (p.pickupLocation = none → (applyPatch r p).pickupLocation = r.pickupLocation)
    ∧ (∀ v, p.pickupLocation = some v → (applyPatch r p).pickupLocation = v)
    ∧ (p.pickupAddress = none → (applyPatch r p).pickupAddress = r.pickupAddress)
    ∧ (∀ v, p.pickupAddress = some v → (applyPatch r p).pickupAddress = v)
    ∧ (p.destinationLocation = none →
        (applyPatch r p).destinationLocation = r.destinationLocation)
    ∧ (∀ v, p.destinationLocation = some v → (applyPatch r p).destinationLocation = v)
    ∧ (p.destinationAddress = none →
        (applyPatch r p).destinationAddress = r.destinationAddress)
    ∧ (∀ v, p.destinationAddress = some v → (applyPatch r p).destinationAddress = v)
    ∧ (p.status = none → (applyPatch r p).status = r.status)
    ∧ (∀ v, p.status = some v → (applyPatch r p).status = v)
    ∧ (p.driverId = none → (applyPatch r p).driverId = r.driverId)
    ∧ (∀ v, p.driverId = some v → (applyPatch r p).driverId = v)
    ∧ (p.driverName = none → (applyPatch r p).driverName = r.driverName)
    ∧ (∀ v, p.driverName = some v → (applyPatch r p).driverName = v)
    ∧ (p.driverPhoneNumber = none →
        (applyPatch r p).driverPhoneNumber = r.driverPhoneNumber)
    ∧ (∀ v, p.driverPhoneNumber = some v → (applyPatch r p).driverPhoneNumber = v)
    ∧ (p.startTime = none → (applyPatch r p).startTime = r.startTime)
    ∧ (∀ v, p.startTime = some v → (applyPatch r p).startTime = v)
    ∧ (p.endTime = none → (applyPatch r p).endTime = r.endTime)
    ∧ (∀ v, p.endTime = some v → (applyPatch r p).endTime = v)
    ∧ (p.cancelTime = none → (applyPatch r p).cancelTime = r.cancelTime)
    ∧ (∀ v, p.cancelTime = some v → (applyPatch r p).cancelTime = v)
    ∧ (p.startTripLocation = none →
        (applyPatch r p).startTripLocation = r.startTripLocation)
    ∧ (∀ v, p.startTripLocation = some v → (applyPatch r p).startTripLocation = v)
    ∧ (p.currentDriverLocation = none →
        (applyPatch r p).currentDriverLocation = r.currentDriverLocation)
    ∧ (∀ v, p.currentDriverLocation = some v → (applyPatch r p).currentDriverLocation = v)
    ∧ (p.calculatedMileage = none →
        (applyPatch r p).calculatedMileage = r.calculatedMileage)
    ∧ (∀ v, p.calculatedMileage = some v → (applyPatch r p).calculatedMileage = v)
    ∧ (p.estimatedPrice = none → (applyPatch r p).estimatedPrice = r.estimatedPrice)
    ∧ (∀ v, p.estimatedPrice = some v → (applyPatch r p).estimatedPrice = v) := by
  refine ⟨by simp [updateRideRequest, h], fun k hk => by simp [updateRideRequest, hk], ?_⟩
  repeat' apply And.intro
  all_goals
    intros
    rename_i h2
    simp [applyPatch, h2]

/-- C5 witness: the merge semantics evaluated on the stored pending ride and
the accept patch from the end-to-end scenario. -/
theorem updateRideRequest_merge_semantics_witness :
    samplePendingStore "r1" = some samplePendingRide
    ∧ (updateRideRequest samplePendingStore "r1"
        { status := some .accepted, driverId := some (some "d1") }) "r1"
      = some (applyPatch samplePendingRide
          { status := some .accepted, driverId := some (some "d1") }) :=
  ⟨rfl,
   (updateRideRequest_merge_semantics samplePendingStore "r1" samplePendingRide
      { status := some .accepted, driverId := some (some "d1") } rfl).1⟩

/-- C2 counterexample: a driver-side cancel attempt on a ride whose stored
and locally held status is `started` is not rejected: it succeeds and
mutates the record back to `pending`, stripping the driver fields. -/
theorem cancelAcceptedRide_mutates_started_ride :
    sampleStartedRide.status = .started
    ∧ (cancelAcceptedRide sampleStartedStore sampleStartedRide "r1").2 = none
    ∧ (cancelAcceptedRide sampleStartedStore sampleStartedRide "r1").1 "r1"
        = some (applyPatch sampleStartedRide driverCancelPatch)
    ∧ (applyPatch sampleStartedRide driverCancelPatch).status = .pending
    ∧ (cancelAcceptedRide sampleStartedStore sampleStartedRide "r1").1 "r1"
        ≠ sampleStartedStore "r1" := by
  refine ⟨rfl, rfl, rfl, rfl, ?_⟩
  decide

/-- C2 amended: the customer-side `cancelRide` succeeds exactly when the
stored status is `pending` or `accepted`, rejects with no mutation from
`started`, `completed` and `cancelled`, and on success marks the record
cancelled with a cancel time; the driver-side `cancelAcceptedRide`, however,
also succeeds when the active ride's status is `started`, returning the
stored record to `pending` with the driver fields stripped. -/
theorem cancelRide_guard_amended (store : Store) (rideId : String) (now : ℤ)
    (r : RideRequest) (h : store rideId = some r) :
    ((cancelRide store rideId now).2 = none ↔ (r.status = .pending ∨ r.status = .accepted))
    ∧ ((r.status = .started ∨ r.status = .completed ∨ r.status = .cancelled) →
        (cancelRide store rideId now).1 = store
        ∧ (cancelRide store rideId now).2.isSome = true)
    ∧ ((r.status = .pending ∨ r.status = .accepted) →
        (cancelRide store rideId now).1 rideId
          = some { r with status := .cancelled, cancelTime := some now })
    ∧ (∀ active : RideRequest, active.status = .accepted ∨ active.status = .started →
        (cancelAcceptedRide store active rideId).2 = none
        ∧ (cancelAcceptedRide store active rideId).1 rideId
            = some { r with
                      status := .pending
                      driverId := none
                      driverName := none
                      driverPhoneNumber := none }) := by
  refine ⟨?_, ?_, ?_, ?_⟩
  · cases hstat : r.status <;> simp [cancelRide, h, hstat]
  · intro hcase
    have hnot : ¬ (r.status = .pending ∨ r.status = .accepted) := by
      rcases hcase with h1 | h1 | h1 <;> simp [h1]
    simp [cancelRide, h, hnot]
  · intro hcase
    rcases hcase with h1 | h1 <;>
      · simp [cancelRide, h, h1, updateRideRequest]
        rfl
  · intro active hact
    have hcond : active.status = .accepted ∨ active.status = .started := hact
    refine ⟨by simp [cancelAcceptedRide, hcond, h], ?_⟩
    simp [cancelAcceptedRide, hcond, h]
    rfl

/-- C2 witness: the amended guard evaluated on a stored pending ride; the
customer-side cancel succeeds there. -/
theorem cancelRide_guard_amended_witness :
    samplePendingStore "r1" = some samplePendingRide
    ∧ (cancelRide samplePendingStore "r1" 5000).2 = none :=
  ⟨rfl,
   (cancelRide_guard_amended samplePendingStore "r1" 5000 samplePendingRide rfl).1.mpr
     (Or.inl rfl)⟩

/-- C4 counterexample: `acceptRide` performs no still-pending check at write
time: with a phone number on file it merges `status := accepted` and the
driver fields into a record whose stored status is `cancelled`. -/
theorem acceptRide_overwrites_nonpending :
    sampleCancelledRide.status ≠ .pending
    ∧ (acceptRide sampleCancelledStore "d1" "Dana" true "0100" "r1").2 = none
    ∧ (acceptRide sampleCancelledStore "d1" "Dana" true "0100" "r1").1 "r1"
        = some { sampleCancelledRide with
                  status := .accepted
                  driverId := some "d1"
                  driverName := some "Dana"
                  driverPhoneNumber := some "0100" } := by
  refine ⟨by decide, ?_, ?_⟩ <;> decide

/-- C4 amended: with a non-empty driver id and name, an accept is applied
exactly when the driver has a phone number on file; no check that the record
is still pending is made at write time — the merge is applied to the stored
record whatever its current status, setting `status := accepted` and
attaching the driver id, name and phone number; without a phone number the
store is untouched. -/
theorem acceptRide_guard_amended (store : Store) (driverId driverName : String)
    (hasPhone : Bool) (phone : String) (rideId : String) (r : RideRequest)
    (h : store rideId = some r) (hd : driverId ≠ "") (hn : driverName ≠ "") :
    ((acceptRide store driverId driverName hasPhone phone rideId).2 = none
        ↔ hasPhone = true)
    ∧ (hasPhone = true →
        (acceptRide store driverId driverName hasPhone phone rideId).1 rideId
          = some { r with
                    status := .accepted
                    driverId := some driverId
                    driverName := some driverName
                    driverPhoneNumber := some phone }
        ∧ ∀ k, k ≠ rideId →
            (acceptRide store driverId driverName hasPhone phone rideId).1 k = store k)
    ∧ (hasPhone = false →
        (acceptRide store driverId driverName hasPhone phone rideId).1 = store) := by
  cases hasPhone with
  | false => simp [acceptRide, hd, hn]
  | true =>
    refine ⟨by simp [acceptRide, hd, hn], fun _ => ⟨?_, fun k hk => ?_⟩, by simp⟩
    · simp [acceptRide, hd, hn, updateRideRequest, h]
      rfl
    · simp [acceptRide, hd, hn, updateRideRequest, hk]

/-- C1: evaluation of two consecutive location-update ticks of a started
ride.  Both ticks deliver the same sample `c1Sample`, so the driver has not
moved between them and the distance between the previous sample and the new
sample is 0; the code nevertheless adds the distance from the fixed
start-trip location again, taking the local mileage and the stored
`calculatedMileage` from 1 to 2, because the `startLocation` baseline is
never advanced to the previous sample.  The new sample is stored as
`currentDriverLocation` as claimed. -/
theorem updateDriverLocation_ignores_previous_sample :
    c1Dist c1Sample c1Sample = 0
    ∧ c1Tick1.1.mileage = 1
    ∧ c1Tick2.1.mileage = 2
    ∧ c1Tick2.1.startLocation = some c1Start
    ∧ (c1Tick2.2 "r1").map RideRequest.calculatedMileage = some 2
    ∧ (c1Tick2.2 "r1").map RideRequest.currentDriverLocation = some (some c1Sample) := by
  refine ⟨?_, ?_, ?_, ?_, ?_, ?_⟩ <;>
    norm_num [c1Dist, c1Sample, c1Start, c1Tick1, c1Tick2, c1State0, c1Store,
      updateDriverLocation, updateRideRequest, applyPatch]

/-- C3: with the local active ride in status `accepted` and a current
location available, a start attempt succeeds exactly when the distance from
the driver to the pickup location is at most the 0.1-mile threshold; on
success the stored record gets status `started`, `startTime`,
`startTripLocation` and a zeroed `calculatedMileage` while every other field
and every other record is untouched; on rejection the store is untouched. -/
theorem startRide_proximity_guard (dist : Location → Location → ℚ) (store : Store)
    (activeRide : RideRequest) (rideId : String) (loc : Location) (now : ℤ)
    (r : RideRequest)
    (hacc : activeRide.status = .accepted) (h : store rideId = some r) :
    ((startRide dist store activeRide rideId (some loc) now).2 = none
        ↔ dist loc activeRide.pickupLocation ≤ PICKUP_PROXIMITY_THRESHOLD)
    ∧ (dist loc activeRide.pickupLocation ≤ PICKUP_PROXIMITY_THRESHOLD →
        (startRide dist store activeRide rideId (some loc) now).1 rideId
          = some { r with
                    status := .started
                    startTime := some now
                    startTripLocation := some loc
                    calculatedMileage := 0 }
        ∧ ∀ k, k ≠ rideId →
            (startRide dist store activeRide rideId (some loc) now).1 k = store k)
    ∧ (PICKUP_PROXIMITY_THRESHOLD < dist loc activeRide.pickupLocation →
        (startRide dist store activeRide rideId (some loc) now).1 = store) := by
  by_cases hd : dist loc activeRide.pickupLocation > PICKUP_PROXIMITY_THRESHOLD
  · refine ⟨?_, ?_, ?_⟩
    · simp [startRide, hacc, hd]
    · intro hle
      exact absurd hle (not_le.mpr hd)
    · intro _
      simp [startRide, hacc, hd]
  · have hle : dist loc activeRide.pickupLocation ≤ PICKUP_PROXIMITY_THRESHOLD :=
      not_lt.mp hd
    refine ⟨?_, ?_, ?_⟩
    · simp [startRide, hacc, hd]
      exact hle
    · intro _
      refine ⟨?_, fun k hk => ?_⟩
      · simp [startRide, hacc, hd, updateRideRequest, h]
        rfl
      · simp [startRide, hacc, hd, updateRideRequest, hk]
    · intro hlt
      exact absurd hlt (not_lt.mpr hle)

/-- C3 witness: the proximity guard evaluated with a distance function that
reports 0 miles; the stored accepted ride is started. -/
theorem startRide_proximity_guard_witness :
    sampleAcceptedRide.status = .accepted
    ∧ sampleAcceptedStore "r1" = some sampleAcceptedRide
    ∧ (startRide (fun _ _ => 0) sampleAcceptedStore sampleAcceptedRide "r1"
        (some ⟨30, 31⟩) 2000).2 = none :=
  ⟨rfl, rfl,
   (startRide_proximity_guard (fun _ _ => 0) sampleAcceptedStore sampleAcceptedRide
      "r1" ⟨30, 31⟩ 2000 sampleAcceptedRide rfl rfl).1.mpr
     (by norm_num [PICKUP_PROXIMITY_THRESHOLD])⟩

/-- C6: whenever the snapshot list holds exactly one ride with an active
status (`pending`, `accepted` or `started`), namely `r`, the reconciliation
callback adopts `r`, wherever it sits in the list. -/
theorem reconcile_unique_active_adopts (now : ℤ) (rides : List RideRequest)
    (r : RideRequest)
    (h : rides.filter (fun x => isActiveStatus x.status) = [r]) :
    reconcileCustomerRides now rides = .adopted r := by
  cases rides with
  | nil => simp at h
  | cons a t => simp [reconcileCustomerRides, h]

/-- C6 witness: a two-record snapshot whose only active record sits after a
completed one is adopted. -/
theorem reconcile_unique_active_adopts_witness :
    ([sampleCompletedOld, sampleAcceptedRide].filter
        (fun x => isActiveStatus x.status)) = [sampleAcceptedRide]
    ∧ reconcileCustomerRides 1000000 [sampleCompletedOld, sampleAcceptedRide]
        = .adopted sampleAcceptedRide :=
  ⟨by decide, reconcile_unique_active_adopts 1000000 _ _ (by decide)⟩

/-- Every record a true `isRecentlyCompleted` test lets through is completed
and carries a nonzero end time newer than the five-minute cutoff. -/
theorem isRecentlyCompleted_spec (now : ℤ) (x : RideRequest)
    (h : isRecentlyCompleted now x = true) :
    x.status = .completed ∧ ∃ t, x.endTime = some t ∧ t ≠ 0 ∧ now - 5 * 60 * 1000 < t := by
  unfold isRecentlyCompleted at h
  cases hstat : x.status <;> cases het : x.endTime <;> rw [hstat, het] at h <;> simp_all

/-- C7: with no active record in the snapshot, when the recently-completed
filter singles out exactly the record `r` (completed, `endTime` within the
last five minutes of `now`), the callback shows `r` and schedules the reset
after the fixed 5000 ms grace window; when every completed record's
`endTime` is older than five minutes, the callback clears immediately. -/
theorem reconcile_completed_grace (now : ℤ) (rides : List RideRequest) (r : RideRequest)
    (hact : rides.filter (fun x => isActiveStatus x.status) = []) :
    (rides.filter (isRecentlyCompleted now) = [r] →
        reconcileCustomerRides now rides = .shownThenCleared r 5000)
    ∧ ((∀ x ∈ rides, x.status = .completed →
          ∀ t, x.endTime = some t → t < now - 5 * 60 * 1000) →
        reconcileCustomerRides now rides = .cleared) := by
  constructor
  · intro hrec
    cases rides with
    | nil => simp at hrec
    | cons a t => simp [reconcileCustomerRides, hact, hrec]
  · intro hold
    have hrec : rides.filter (isRecentlyCompleted now) = [] := by
      rw [List.filter_eq_nil_iff]
      intro x hx hcontra
      obtain ⟨hstat, t, het, _, hlt⟩ := isRecentlyCompleted_spec now x hcontra
      have := hold x hx hstat t het
      omega
    cases rides with
    | nil => rfl
    | cons a t => simp [reconcileCustomerRides, hact, hrec]

/-- C7 witness: a snapshot with a four-and-a-bit-minutes-old completed ride
is shown with the 5000 ms grace reset, and a snapshot whose only completed
ride is far older is cleared immediately. -/
theorem reconcile_completed_grace_witness :
    reconcileCustomerRides 1000000 [sampleCompletedRecent]
        = .shownThenCleared sampleCompletedRecent 5000
    ∧ reconcileCustomerRides 1000000 [sampleCompletedOld] = .cleared :=
  ⟨(reconcile_completed_grace 1000000 [sampleCompletedRecent] sampleCompletedRecent
      (by decide)).1 (by decide),
   (reconcile_completed_grace 1000000 [sampleCompletedOld] sampleCompletedRecent
      (by decide)).2
     (by
       intro x hx hs t ht
       rw [List.mem_singleton] at hx
       subst hx
       simp [sampleCompletedOld] at ht
       omega)⟩

/-- C4 witness: the amended accept guard evaluated on the stored pending
ride with a phone number on file. -/
theorem acceptRide_guard_amended_witness :
    samplePendingStore "r1" = some samplePendingRide
    ∧ (acceptRide samplePendingStore "d1" "Dana" true "0100" "r1").2 = none :=
  ⟨rfl,
   (acceptRide_guard_amended samplePendingStore "d1" "Dana" true "0100" "r1"
      samplePendingRide rfl (by decide) (by decide)).1.mpr rfl⟩

/-- C8: a ride request performs no write when validation fails — missing
destination, missing current location, an existing active ride, or a price
that failed to parse (`none`) or is not positive — and the error cases are
exactly those; a successful request leaves every other key untouched and
stores one new record with status `pending` and `calculatedMileage` 0 under
the fresh key. -/
theorem requestRide_validation (cid cname phone : String)
    (dest : Option (Location × String)) (cur : Option Location)
    (existing : Option RideRequest) (price : Option ℚ) (paddr : String)
    (store : Store) (newId : String) (now : ℤ) :
    ((requestRide cid cname phone dest cur existing price paddr store newId now).2.isSome
        = true →
      (requestRide cid cname phone dest cur existing price paddr store newId now).1 = store)
    ∧ ((requestRide cid cname phone dest cur existing price paddr store newId now).2 = none
        ↔ (∃ d, dest = some d) ∧ (∃ l, cur = some l)
          ∧ (∀ er, existing = some er → isActiveStatus er.status = false)
          ∧ (∃ p, price = some p ∧ 0 < p))
    ∧ ((requestRide cid cname phone dest cur existing price paddr store newId now).2
          = none →
        ∃ rec,
          (requestRide cid cname phone dest cur existing price paddr store newId now).1 newId
              = some rec
          ∧ rec.status = .pending ∧ rec.calculatedMileage = 0
          ∧ ∀ k, k ≠ newId →
              (requestRide cid cname phone dest cur existing price paddr store newId now).1 k
                = store k) := by
  rcases dest with _ | dest
  · simp [requestRide]
  rcases cur with _ | loc
  · simp [requestRide]
  rcases existing with _ | er
  · rcases price with _ | p
    · simp [requestRide]
    by_cases hp : p ≤ 0
    · simp [requestRide, hp]
    · simp [requestRide, hp, createRideRequest]
      exact ⟨not_le.mp hp, fun k hk hk2 => absurd hk2 hk⟩
  · by_cases hact : isActiveStatus er.status = true
    · simp [requestRide, hact]
    rw [Bool.not_eq_true] at hact
    rcases price with _ | p
    · simp [requestRide, hact]
    by_cases hp : p ≤ 0
    · simp [requestRide, hact, hp]
    · simp [requestRide, hact, hp, createRideRequest]
      exact ⟨not_le.mp hp, fun k hk hk2 => absurd hk2 hk⟩

/-- C8 witness: a fully valid request against an empty store writes the
pending record. -/
theorem requestRide_validation_witness :
    (requestRide "c1" "Cleo" "0100" (some (⟨30, 31⟩, "Airport")) (some ⟨30, 31⟩)
        none (some 25) "Pickup" (fun _ => none) "n1" 1000).2 = none :=
  (requestRide_validation "c1" "Cleo" "0100" (some (⟨30, 31⟩, "Airport")) (some ⟨30, 31⟩)
      none (some 25) "Pickup" (fun _ => none) "n1" 1000).2.1.mpr
    ⟨⟨_, rfl⟩, ⟨_, rfl⟩, by simp, ⟨25, rfl, by norm_num⟩⟩

/-- After erasing the first entry whose id matches `x` from a list whose ids
are pairwise distinct, no remaining entry carries id `x`. -/
theorem saveRecentSearch_id_not_mem (x : String) (l : List PlaceResult)
    (h : (l.map PlaceResult.id).Nodup) :
    x ∉ (l.eraseP (fun p => p.id == x)).map PlaceResult.id := by
  induction l with
  | nil => simp
  | cons a t ih =>
    rw [List.map_cons, List.nodup_cons] at h
    by_cases hax : a.id = x
    · have hb : (a.id == x) = true := by simp [hax]
      simp only [List.eraseP_cons, hb, cond_true]
      intro hmem
      exact h.1 (by rwa [hax])
    · have hb : (a.id == x) = false := by simp [hax]
      simp only [List.eraseP_cons, hb, cond_false, List.map_cons, List.mem_cons]
      rintro (h1 | h1)
      · exact hax h1.symm
      · exact ih h.2 h1

/-- C9: saving a place into a recent-search list whose ids are pairwise
distinct yields a list of at most 5 entries whose first entry is the place
just saved and whose ids are again pairwise distinct. -/
theorem saveRecentSearch_invariant (place : PlaceResult) (stored : List PlaceResult)
    (h : (stored.map PlaceResult.id).Nodup) :
    (saveRecentSearch place stored).length ≤ 5
    ∧ (saveRecentSearch place stored).head? = some place
    ∧ ((saveRecentSearch place stored).map PlaceResult.id).Nodup := by
  have hsub : List.Sublist ((saveRecentSearch place stored).map PlaceResult.id)
      ((place :: stored.eraseP (fun p => p.id == place.id)).map PlaceResult.id) :=
    (List.take_sublist 5 _).map PlaceResult.id
  refine ⟨?_, rfl, ?_⟩
  · simp only [saveRecentSearch, List.length_take]
    exact min_le_left _ _
  · have hcons :
        ((place :: stored.eraseP (fun p => p.id == place.id)).map PlaceResult.id).Nodup := by
      rw [List.map_cons, List.nodup_cons]
      exact ⟨saveRecentSearch_id_not_mem place.id stored h,
        h.sublist ((List.eraseP_sublist _).map PlaceResult.id)⟩
    exact hcons.sublist hsub

/-- C9 witness: re-saving the first of two stored places keeps the list
bounded, fresh-first and duplicate-free. -/
theorem saveRecentSearch_invariant_witness :
    (([⟨"p1", "Cafe", "Addr 1", ⟨30, 31⟩, none, none⟩,
       ⟨"p2", "Mall", "Addr 2", ⟨30, 32⟩, none, none⟩] :
        List PlaceResult).map PlaceResult.id).Nodup
    ∧ (saveRecentSearch ⟨"p1", "Cafe", "Addr 1", ⟨30, 31⟩, none, none⟩
        [⟨"p1", "Cafe", "Addr 1", ⟨30, 31⟩, none, none⟩,
         ⟨"p2", "Mall", "Addr 2", ⟨30, 32⟩, none, none⟩]).head?
      = some ⟨"p1", "Cafe", "Addr 1", ⟨30, 31⟩, none, none⟩ :=
  ⟨by decide,
   (saveRecentSearch_invariant ⟨"p1", "Cafe", "Addr 1", ⟨30, 31⟩, none, none⟩
      [⟨"p1", "Cafe", "Addr 1", ⟨30, 31⟩, none, none⟩,
       ⟨"p2", "Mall", "Addr 2", ⟨30, 32⟩, none, none⟩] (by decide)).2.1⟩

/-- C10: `getPhoneNumber` returns the device-local cached phone number
whenever one exists, for every user id alike, so `hasStoredPhoneNumber` is
then true for every user id; and after any `savePhoneNumber` call — by any
user — the device cache is populated, so `hasStoredPhoneNumber` holds for
every user id on the device. -/
theorem getPhoneNumber_device_global (ls : LocalPhoneCache) (fb : PhoneStore)
    (uid uidB : String) (p : String) :
    (ls.phone_number = some p →
      (getPhoneNumber ls fb uid).1 = some p
      ∧ (getPhoneNumber ls fb uid).1 = (getPhoneNumber ls fb uidB).1
      ∧ hasStoredPhoneNumber ls fb uid = true)
    ∧ (∀ saver phoneNumber userType now,
        hasStoredPhoneNumber (savePhoneNumber ls fb saver phoneNumber userType now).1
          (savePhoneNumber ls fb saver phoneNumber userType now).2 uid = true) := by
  constructor
  · intro h
    refine ⟨by simp [getPhoneNumber, h], by simp [getPhoneNumber, h], ?_⟩
    simp [hasStoredPhoneNumber, getPhoneNumber, h]
  · intro saver phoneNumber userType now
    simp [hasStoredPhoneNumber, getPhoneNumber, savePhoneNumber]

/-- C10 witness: once a phone number is cached on the device, a different
user id still reads it and passes the phone-on-file check. -/
theorem getPhoneNumber_device_global_witness :
    (getPhoneNumber ⟨some "0100", some "driver", some "u1"⟩ (fun _ => none) "u2").1
        = some "0100"
    ∧ hasStoredPhoneNumber ⟨some "0100", some "driver", some "u1"⟩ (fun _ => none) "u2"
        = true :=
  ⟨((getPhoneNumber_device_global ⟨some "0100", some "driver", some "u1"⟩ (fun _ => none)
      "u2" "u1" "0100").1 rfl).1,
   ((getPhoneNumber_device_global ⟨some "0100", some "driver", some "u1"⟩ (fun _ => none)
      "u2" "u1" "0100").1 rfl).2.2⟩

end Triper
